import Mathlib

/-!
Shallow embedding of the BlueZ adapter manager (the manager implementation
embedded in src/doc/proximity-api.txt) and of the hciops kernel-event plugin
(src/plugins/hciops.c), together with theorems settling the specification
claims about them.

External collaborators (the Adapter Operations backend `adapter_start` /
`adapter_stop` / `adapter_create`, the kernel queries `hci_devinfo` /
`hci_get_route`, the security manager) are out of scope per the spec; their
results enter the model as explicit parameters, and calls to them are
recorded in traces of actions.
-/

namespace BlueZ

/-- HCI packet type tag for event packets (bluetooth/hci.h, 0x04). -/
def HCI_EVENT_PKT : Nat := 4

/-- Event code of stack-internal events (bluetooth/hci.h, 0xFD). -/
def EVT_STACK_INTERNAL : Nat := 253

/-- Size in bytes of hci_event_hdr (one evt byte plus one plen byte). -/
def HCI_EVENT_HDR_SIZE : Nat := 2

/-- Stack-internal sub-event type tag for device events (0x01). -/
def EVT_SI_DEVICE : Nat := 1

/-- Kernel device-event codes from bluetooth/hci.h. -/
def HCI_DEV_REG : Nat := 1

def HCI_DEV_UNREG : Nat := 2

def HCI_DEV_UP : Nat := 3

def HCI_DEV_DOWN : Nat := 4

/-- errno EINVAL: manager functions return -EINVAL for unknown device ids. -/
def EINVAL : Int := 22

/-- The uint16_t device key an int id is reduced to: adapter_id_cmp compares
`adapter_get_dev_id(adapter)` (a uint16_t) against `GPOINTER_TO_UINT(b)` cast
to uint16_t, i.e. against the id taken modulo 2^16 (two's-complement
truncation, so -1 becomes 65535). -/
def devKey (id : Int) : Nat := (id % 65536).toNat

/-- One btd_adapter as far as manager.c observes it: its uint16 dev_id
(returned by `adapter_get_dev_id`) and the devup flag passed to
`adapter_create`.  The D-Bus object path is derived deterministically and
injectively from the dev_id, so emitted notifications are recorded here with
the dev_id of the adapter whose path the C code would emit. -/
structure Adapter where
  devId : Nat
  up : Bool
deriving DecidableEq, Repr

/-- `adapter_create(connection, id, devup)`: the created record stores the
id as a uint16 dev_id.  Allocation failure of the external adapter object is
out of scope; creation is modelled as always succeeding. -/
def adapter_create (id : Int) (devup : Bool) : Adapter :=
  { devId := devKey id, up := devup }

/-- D-Bus signals and property updates emitted by manager.c, each recorded
with the dev_id whose derived object path the C code would carry. -/
inductive Evt where
  | adaptersChanged
  | adapterAdded (devId : Nat)
  | adapterRemoved (devId : Nat)
  | defaultAdapterChanged (devId : Nat)
deriving DecidableEq, Repr

/-- The process-wide manager state: the ordered adapter list (GSList
`adapters`, append order = registration order) and `default_adapter_id`
(an int, -1 meaning no default). -/
structure ManagerState where
  adapters : List Adapter
  default_adapter_id : Int
deriving DecidableEq, Repr

/-- The state at process start: empty list, default_adapter_id = -1. -/
def initState : ManagerState :=
  { adapters := [], default_adapter_id := -1 }

/-- `manager_find_adapter_by_id`: first list element whose uint16 dev_id
equals the truncated id (g_slist_find_custom with adapter_id_cmp). -/
def manager_find_adapter_by_id (l : List Adapter) (id : Int) : Option Adapter :=
  l.find? (fun a => a.devId == devKey id)

/-- `manager_set_default_adapter(id)`: records `default_adapter_id = id`
unconditionally, then emits DefaultAdapterChanged only when the id resolves
to a registered adapter (whose path is then emitted). -/
def manager_set_default_adapter (s : ManagerState) (id : Int) :
    ManagerState × List Evt :=
  let s' : ManagerState := { adapters := s.adapters, default_adapter_id := id }
  match manager_find_adapter_by_id s.adapters id with
  | none => (s', [])
  | some a => (s', [Evt.defaultAdapterChanged a.devId])

/-- `manager_remove_adapter(adapter)`: drops the adapter from the list,
emits the Adapters property update, re-derives the default from the
`hci_get_route` result (passed in as `route`) when the removed adapter was
the default (or no default was set), and emits AdapterRemoved. -/
def manager_remove_adapter (s : ManagerState) (a : Adapter) (route : Int) :
    ManagerState × List Evt :=
  let s1 : ManagerState :=
    { adapters := s.adapters.erase a,
      default_adapter_id := s.default_adapter_id }
  let step :=
    if s1.default_adapter_id = (a.devId : Int) ∨ s1.default_adapter_id < 0 then
      manager_set_default_adapter s1 route
    else (s1, [])
  (step.1, Evt.adaptersChanged :: (step.2 ++ [Evt.adapterRemoved a.devId]))

/-- `manager_unregister_adapter(id)`: -1 (NotFound) when no adapter has the
id, otherwise removes the found adapter and returns 0. -/
def manager_unregister_adapter (s : ManagerState) (id : Int) (route : Int) :
    ManagerState × List Evt × Int :=
  match manager_find_adapter_by_id s.adapters id with
  | none => (s, [], -1)
  | some a =>
    let step := manager_remove_adapter s a route
    (step.1, step.2, 0)

/-- `manager_register_adapter(id, devup)`: -1 (AlreadyRegistered) when the
id already resolves; otherwise the created adapter is appended
(g_slist_append) and 0 is returned. -/
def manager_register_adapter (s : ManagerState) (id : Int) (devup : Bool) :
    ManagerState × Int :=
  match manager_find_adapter_by_id s.adapters id with
  | some _ => (s, -1)
  | none =>
    ({ adapters := s.adapters ++ [adapter_create id devup],
       default_adapter_id := s.default_adapter_id }, 0)

/-- `manager_start_adapter(id)`: -EINVAL when the id does not resolve;
otherwise returns the backend `adapter_start` result (passed in as
`startRet`), and when that result is non-negative and no default is set,
makes this adapter the default. -/
def manager_start_adapter (s : ManagerState) (id : Int) (startRet : Int) :
    ManagerState × List Evt × Int :=
  match manager_find_adapter_by_id s.adapters id with
  | none => (s, [], -EINVAL)
  | some _ =>
    if startRet < 0 then (s, [], startRet)
    else if s.default_adapter_id < 0 then
      let step := manager_set_default_adapter s id
      (step.1, step.2, startRet)
    else (s, [], startRet)

/-- `manager_stop_adapter(id)`: -EINVAL when the id does not resolve;
otherwise returns the backend `adapter_stop` result (passed in as
`stopRet`).  The manager state is not touched on either path. -/
def manager_stop_adapter (s : ManagerState) (id : Int) (stopRet : Int) :
    ManagerState × Int :=
  match manager_find_adapter_by_id s.adapters id with
  | none => (s, -EINVAL)
  | some _ => (s, stopRet)

/-- Result of the `hci_devinfo` flag query: the HCI_RAW and HCI_UP bits. -/
structure DevInfo where
  rawFlag : Bool
  upFlag : Bool
deriving DecidableEq, Repr

/-- Calls hciops.c makes into its collaborators, in program order. -/
inductive Act where
  | spawnInit (devId : Nat)
  | queryFlags (devId : Nat)
  | configure (devId : Nat)
  | secUp (devId : Nat)
  | secDown (devId : Nat)
  | callRegister (devId : Nat) (devup : Bool)
deriving DecidableEq, Repr

/-- `device_devreg_setup(dev_id)`: spawns the detached initializer child
(`init_device`, the parent returns immediately), then queries the device
flags (`hci_devinfo`, outcome passed in as `di`); on query failure it
returns, and for raw devices it never registers; otherwise it calls
`manager_register_adapter(dev_id, devup)` with the queried up flag. -/
def device_devreg_setup (s : ManagerState) (devId : Nat) (di : Option DevInfo) :
    ManagerState × List Act :=
  match di with
  | none => (s, [Act.spawnInit devId, Act.queryFlags devId])
  | some f =>
    if f.rawFlag then (s, [Act.spawnInit devId, Act.queryFlags devId])
    else
      ((manager_register_adapter s (devId : Int) f.upFlag).1,
       [Act.spawnInit devId, Act.queryFlags devId,
        Act.callRegister devId f.upFlag])

/-- `device_devup_setup(dev_id)`: per-up configuration, then
`start_security_manager`, then `manager_start_adapter`; when the latter
returns 1 (the backend observed ioctl(DEVDOWN) during start),
`stop_security_manager` is called right away. -/
def device_devup_setup (s : ManagerState) (devId : Nat) (startRet : Int) :
    ManagerState × List Act × List Evt :=
  let step := manager_start_adapter s (devId : Int) startRet
  if step.2.2 = 1 then
    (step.1, [Act.configure devId, Act.secUp devId, Act.secDown devId],
     step.2.1)
  else
    (step.1, [Act.configure devId, Act.secUp devId], step.2.1)

/-- Environment responses consumed while handling one device event. -/
structure Oracle where
  devinfo : Option DevInfo
  route : Int
  startRet : Int
  stopRet : Int
deriving Repr

/-- `device_event(event, dev_id)`: dispatch on the kernel event code.  The
Down path calls `manager_stop_adapter` and then, unconditionally,
`stop_security_manager`. -/
def device_event (s : ManagerState) (event devId : Nat) (o : Oracle) :
    ManagerState × List Act × List Evt :=
  if event = HCI_DEV_REG then
    let step := device_devreg_setup s devId o.devinfo
    (step.1, step.2, [])
  else if event = HCI_DEV_UNREG then
    let step := manager_unregister_adapter s (devId : Int) o.route
    (step.1, [], step.2.1)
  else if event = HCI_DEV_UP then
    device_devup_setup s devId o.startRet
  else if event = HCI_DEV_DOWN then
    let step := manager_stop_adapter s (devId : Int) o.stopRet
    (step.1, [Act.secDown devId], [])
  else (s, [], [])

/-- Outcome of `g_io_channel_read` on the control socket: a successful read
delivering `len` bytes into the stack buffer whose contents are `buf`
(positions at and beyond `len` hold residual uninitialized stack bytes), a
would-block condition, or a hard error. -/
inductive ReadResult where
  | ok (buf : Nat → Nat) (len : Nat)
  | again
  | err

/-- The dispatch decision of `io_stack_event` on a successful read: the C
code checks `buf[0]` against HCI_EVENT_PKT and the event-header `evt` byte
`buf[1]` against EVT_STACK_INTERNAL, then skips the two header bytes so
that `si` points at `buf+3`.  `evt_stack_internal` is the packed struct
`\x7b uint16_t type; uint8_t data[0]; \x7d`, so `si->type` is the
little-endian uint16 at offsets 3..4; on EVT_SI_DEVICE, `sd = &si->data`
is the packed `evt_si_device` `\x7b uint16_t event; uint16_t dev_id; \x7d`,
so `device_event` receives the uint16 at offsets 5..6 and the uint16 at
offsets 7..8.  The reported length `len` is never consulted after the
error check, which this definition mirrors. -/
def io_stack_event_dispatch (buf : Nat → Nat) (len : Nat) : Option (Nat × Nat) :=
  if buf 0 ≠ HCI_EVENT_PKT then none
  else if buf 1 ≠ EVT_STACK_INTERNAL then none
  else if buf 3 + 256 * buf 4 = EVT_SI_DEVICE then
    some (buf 5 + 256 * buf 6, buf 7 + 256 * buf 8)
  else none

/-- `io_stack_event`: first component is the `device_event` dispatch (if
any), second is the returned gboolean (FALSE deregisters the watch).
G_IO_ERROR_AGAIN keeps waiting; any other read error is fatal to the
watch. -/
def io_stack_event (r : ReadResult) : Option (Nat × Nat) × Bool :=
  match r with
  | ReadResult.again => (none, true)
  | ReadResult.err => (none, false)
  | ReadResult.ok buf len => (io_stack_event_dispatch buf len, true)

/-- sizeof(pid_t) on the reference platform. -/
def PID_SIZE : Nat := 4

/-- The WNOHANG option bit of waitpid. -/
def WNOHANG : Nat := 1

/-- System calls issued by the child-exit reap handler. -/
inductive Sys where
  | readPipe (requested : Nat) (returned : Nat)
  | waitpid (pid : Nat) (options : Nat)
deriving DecidableEq, Repr

/-- `child_exit`: reads one pid-sized record from the completion pipe
(`returned` is how many bytes the read delivered, `pidRead` the pid value
in the buffer); on a full record it calls `waitpid(child_pid, &status, 0)`
for that specific pid, with options 0. -/
def child_exit (returned : Nat) (pidRead : Nat) : List Sys :=
  if returned ≠ PID_SIZE then [Sys.readPipe PID_SIZE returned]
  else [Sys.readPipe PID_SIZE returned, Sys.waitpid pidRead 0]

/-- A wait that can block: its options word has the WNOHANG bit clear. -/
def isBlockingWait : Sys → Bool
  | Sys.waitpid _ opts => opts &&& WNOHANG == 0
  | _ => false

/-- Recognizer for pipe reads in a syscall trace. -/
def isRead : Sys → Bool
  | Sys.readPipe _ _ => true
  | _ => false

/-- Recognizer for waits in a syscall trace. -/
def isWait : Sys → Bool
  | Sys.waitpid _ _ => true
  | _ => false

/-- Recognizer for security-manager notifications in an action trace. -/
def isSecAct : Act → Bool
  | Act.secUp _ => true
  | Act.secDown _ => true
  | _ => false

/-- Whether an emitted-event list contains a DefaultAdapterChanged signal. -/
def hasDefaultChanged (evs : List Evt) : Bool :=
  evs.any fun e =>
    match e with
    | Evt.defaultAdapterChanged _ => true
    | _ => false

/-- The five registry operations of the lifecycle state machine, each
carrying the environment response it consumes: the `hci_get_route` result
for unregister, the backend start and stop results for mark_up and
mark_down. -/
inductive MOp where
  | register (id : Int) (devup : Bool)
  | unregister (id : Int) (route : Int)
  | markUp (id : Int) (startRet : Int)
  | markDown (id : Int) (stopRet : Int)
  | setDefault (id : Int)
deriving DecidableEq, Repr

/-- State effect of one registry operation. -/
def applyOp (s : ManagerState) : MOp → ManagerState
  | MOp.register id devup => (manager_register_adapter s id devup).1
  | MOp.unregister id route => (manager_unregister_adapter s id route).1
  | MOp.markUp id r => (manager_start_adapter s id r).1
  | MOp.markDown id r => (manager_stop_adapter s id r).1
  | MOp.setDefault id => (manager_set_default_adapter s id).1

/-- State after a whole operation sequence, left to right. -/
def runOps (ops : List MOp) (s : ManagerState) : ManagerState :=
  match ops with
  | [] => s
  | op :: rest => runOps rest (applyOp s op)

/-- The uint16 keys of the register calls in a trace, in call order. -/
def regIds : List MOp → List Nat
  | [] => []
  | MOp.register id _ :: rest => devKey id :: regIds rest
  | _ :: rest => regIds rest

/-- Whether an operation is an unregister call for the given uint16 key. -/
def isUnregOf (d : Nat) : MOp → Bool
  | MOp.unregister id _ => d == devKey id
  | _ => false

/-- Spec-side description, following the claim's words: the adapters that
should be listed are exactly those created by a register call not followed
by a later unregister of the same device, in registration order. -/
def specListedAdapters : List MOp → List Adapter
  | [] => []
  | MOp.register id devup :: rest =>
    if rest.any (isUnregOf (devKey id)) then specListedAdapters rest
    else adapter_create id devup :: specListedAdapters rest
  | _ :: rest => specListedAdapters rest

/-- Whether an operation is a register or unregister call. -/
def isRegistryOp : MOp → Bool
  | MOp.register _ _ => true
  | MOp.unregister _ _ => true
  | _ => false

/-- Kernel device ids are uint16: non-negative and below 2^16. -/
def idInRange (id : Int) : Bool :=
  decide (0 ≤ id) && decide (id < 65536)

/-- A resolvability condition on one operation at the state where it runs:
every default assignment it performs — a direct set_default, the routing
result installed while unregistering, the default adopted by mark_up —
targets a negative id (none) or an in-range id resolving to a registered
adapter. -/
def opOk (s : ManagerState) : MOp → Bool
  | MOp.register _ _ => true
  | MOp.unregister id route =>
    match manager_find_adapter_by_id s.adapters id with
    | none => true
    | some a =>
      decide (route < 0) ||
        (idInRange route &&
          (manager_find_adapter_by_id (s.adapters.erase a) route).isSome)
  | MOp.markUp id _ => idInRange id
  | MOp.markDown _ _ => true
  | MOp.setDefault id =>
    decide (id < 0) ||
      (idInRange id && (manager_find_adapter_by_id s.adapters id).isSome)

/-- The resolvability condition along a whole trace. -/
def traceOk (s : ManagerState) : List MOp → Bool
  | [] => true
  | op :: rest => opOk s op && traceOk (applyOp s op) rest

/-- Strengthened inductive invariant: a non-negative default is the exact
(untruncated) dev_id of some registered adapter, and every stored dev_id
fits in 16 bits. -/
def InvExact (s : ManagerState) : Prop :=
  (s.default_adapter_id < 0 ∨
    ∃ a ∈ s.adapters, (a.devId : Int) = s.default_adapter_id) ∧
  ∀ a ∈ s.adapters, a.devId < 65536

/-- Contents of the handler stack buffer after a read that delivered only
the two bytes 0x04 0xFD (packet-type tag and event code): positions 2 and
beyond hold residual uninitialized stack bytes, here 99 01 00 07 00 05 00,
which happen to encode si->type = 1 (EVT_SI_DEVICE) at offsets 3..4,
sd->event = 7 at offsets 5..6 and sd->dev_id = 5 at offsets 7..8. -/
def truncFrame : Nat → Nat :=
  fun i => [4, 253, 99, 1, 0, 7, 0, 5, 0].getD i 0

/-- Claim C1: a control-channel buffer shorter than the packet-type byte
plus the fixed event header must never produce a device_event dispatch.
The code violates this: it never consults the delivered length, so a read
that delivered only 2 bytes (less than 1 + HCI_EVENT_HDR_SIZE = 3) still
dispatches a device event built from residual stack bytes. -/
theorem io_stack_event_dispatches_truncated_frame :
    2 < 1 + HCI_EVENT_HDR_SIZE ∧
      io_stack_event (ReadResult.ok truncFrame 2) = (some (7, 5), true) := by
  exact ⟨by decide, rfl⟩

/-- Claim C2 counterexample: with registry [adapter 0] and default 0,
unregistering dev_id 0 while the routing query reports none (-1) leaves
default_adapter_id = -1, which differs from the previous default 0, yet no
DefaultAdapterChanged signal is emitted — refuting "emitted iff the
resulting default differs from the previous one". -/
theorem unregister_default_changed_without_signal :
    ((manager_unregister_adapter ⟨[⟨0, false⟩], 0⟩ 0 (-1)).1.default_adapter_id
        = -1) ∧
      ((-1 : Int) ≠ 0) ∧
      hasDefaultChanged
        (manager_unregister_adapter ⟨[⟨0, false⟩], 0⟩ 0 (-1)).2.1 = false := by
  decide

/-- Claim C2 (amended): unregistering the current default adapter records
the routing-query result as the new default (or -1, none, if the query
reports none), and DefaultAdapterChanged is emitted iff that result
resolves to an adapter still registered after the removal. -/
theorem unregister_default_rederived
    (s : ManagerState) (id route : Int) (a : Adapter)
    (hf : manager_find_adapter_by_id s.adapters id = some a)
    (hd : s.default_adapter_id = (a.devId : Int)) :
    ((manager_unregister_adapter s id route).1.default_adapter_id = route) ∧
      (hasDefaultChanged (manager_unregister_adapter s id route).2.1 = true ↔
        (manager_find_adapter_by_id (s.adapters.erase a) route).isSome
          = true) := by
  unfold manager_unregister_adapter
  rw [hf]
  unfold manager_remove_adapter manager_set_default_adapter
  cases h2 : manager_find_adapter_by_id (s.adapters.erase a) route with
  | none => simp [hd, h2, hasDefaultChanged]
  | some b => simp [hd, h2, hasDefaultChanged]

/-- Witness for the amended C2 at a concrete input: registry
[adapter 0, adapter 1] with default 0, unregister 0 with routing result 1. -/
theorem unregister_default_rederived_witness :
    (manager_find_adapter_by_id
        (⟨[⟨0, false⟩, ⟨1, true⟩], 0⟩ : ManagerState).adapters 0
      = some ⟨0, false⟩) ∧
    ((⟨[⟨0, false⟩, ⟨1, true⟩], 0⟩ : ManagerState).default_adapter_id
      = ((0 : Nat) : Int)) ∧
    (((manager_unregister_adapter ⟨[⟨0, false⟩, ⟨1, true⟩], 0⟩ 0 1).1.default_adapter_id
        = 1) ∧
      (hasDefaultChanged
          (manager_unregister_adapter ⟨[⟨0, false⟩, ⟨1, true⟩], 0⟩ 0 1).2.1 = true ↔
        (manager_find_adapter_by_id
            ((⟨[⟨0, false⟩, ⟨1, true⟩], 0⟩ : ManagerState).adapters.erase
              ⟨0, false⟩) 1).isSome = true)) :=
  ⟨by decide, by decide,
    unregister_default_rederived ⟨[⟨0, false⟩, ⟨1, true⟩], 0⟩ 0 1 ⟨0, false⟩
      (by decide) (by decide)⟩

/-- Claim C5: a second register of a dev_id already present returns
AlreadyRegistered (-1) and leaves the manager state, in particular the
adapter collection, unchanged. -/
theorem register_duplicate_rejected (s : ManagerState) (id : Int) (up : Bool)
    (h : (manager_find_adapter_by_id s.adapters id).isSome = true) :
    manager_register_adapter s id up = (s, -1) := by
  unfold manager_register_adapter
  cases hf : manager_find_adapter_by_id s.adapters id with
  | none => rw [hf] at h; simp at h
  | some a => simp

/-- Witness for C5: registering dev_id 0 over a registry holding 0. -/
theorem register_duplicate_rejected_witness :
    ((manager_find_adapter_by_id
        (⟨[⟨0, false⟩], -1⟩ : ManagerState).adapters 0).isSome = true) ∧
      manager_register_adapter ⟨[⟨0, false⟩], -1⟩ 0 true
        = (⟨[⟨0, false⟩], -1⟩, -1) :=
  ⟨by decide, register_duplicate_rejected ⟨[⟨0, false⟩], -1⟩ 0 true (by decide)⟩

/-- Claim C6: on a Registered kernel event the initializer child is spawned
first and the flags are re-queried second; when the raw flag is set,
register is never called; otherwise register is called with the queried up
flag and the state is the registration result. -/
theorem devreg_setup_spawns_then_queries_then_registers
    (s : ManagerState) (id : Nat) (di : Option DevInfo) :
    ((device_devreg_setup s id di).2.take 2
        = [Act.spawnInit id, Act.queryFlags id]) ∧
      (∀ f, di = some f →
        (f.rawFlag = true →
          ∀ u, Act.callRegister id u ∉ (device_devreg_setup s id di).2) ∧
        (f.rawFlag = false →
          (device_devreg_setup s id di).2
              = [Act.spawnInit id, Act.queryFlags id,
                 Act.callRegister id f.upFlag] ∧
            (device_devreg_setup s id di).1
              = (manager_register_adapter s (id : Int) f.upFlag).1)) := by
  cases di with
  | none => simp [device_devreg_setup]
  | some f =>
    cases hr : f.rawFlag with
    | true => simp [device_devreg_setup, hr]
    | false => simp [device_devreg_setup, hr]

/-- Witness for C6: a Registered event for dev 0 with flags raw = false,
up = true registers the device with the queried up flag. -/
theorem devreg_setup_witness :
    (device_devreg_setup initState 0 (some ⟨false, true⟩)).2
      = [Act.spawnInit 0, Act.queryFlags 0, Act.callRegister 0 true] :=
  (((devreg_setup_spawns_then_queries_then_registers initState 0
      (some ⟨false, true⟩)).2 ⟨false, true⟩ rfl).2 rfl).1

/-- Claim C7: on an Up event whose backend start reports ForcedBackDown
(return value 1) for a registered adapter, the security manager is told
down immediately after up (the security-notification subtrace is exactly
[up, down]), and the down notification occurs exactly when the adapter is
registered and start returns 1. -/
theorem devup_forced_back_down_security (s : ManagerState) (id : Nat) (r : Int) :
    ((manager_find_adapter_by_id s.adapters (id : Int)).isSome = true → r = 1 →
        (device_devup_setup s id r).2.1.filter isSecAct
          = [Act.secUp id, Act.secDown id]) ∧
      (Act.secDown id ∈ (device_devup_setup s id r).2.1 ↔
        ((manager_find_adapter_by_id s.adapters (id : Int)).isSome = true ∧
          r = 1)) := by
  unfold device_devup_setup manager_start_adapter
  cases hf : manager_find_adapter_by_id s.adapters (id : Int) with
  | none => simp [hf, isSecAct, EINVAL]
  | some a =>
    by_cases hr : r = 1
    · subst hr
      by_cases hdef : s.default_adapter_id < 0 <;>
        simp [hf, hdef, isSecAct]
    · by_cases hneg : r < 0
      · simp [hf, hneg, hr, isSecAct]
      · by_cases hdef : s.default_adapter_id < 0 <;>
          simp [hf, hneg, hdef, hr, isSecAct]

/-- Witness for C7: registry [adapter 0] with no default, Up event for dev 0
with start returning 1 yields security subtrace [up 0, down 0]. -/
theorem devup_forced_back_down_security_witness :
    ((manager_find_adapter_by_id
        (⟨[⟨0, false⟩], -1⟩ : ManagerState).adapters ((0 : Nat) : Int)).isSome
      = true) ∧
      (device_devup_setup ⟨[⟨0, false⟩], -1⟩ 0 1).2.1.filter isSecAct
        = [Act.secUp 0, Act.secDown 0] :=
  ⟨by decide,
    (devup_forced_back_down_security ⟨[⟨0, false⟩], -1⟩ 0 1).1 (by decide) rfl⟩

/-- Claim C8: set_default records the requested id as default_adapter_id
even when it is not registered, and DefaultAdapterChanged is emitted iff
the id resolves to a registered adapter. -/
theorem set_default_records_and_emits_iff_resolvable
    (s : ManagerState) (id : Int) :
    (manager_set_default_adapter s id).1.default_adapter_id = id ∧
      (hasDefaultChanged (manager_set_default_adapter s id).2 = true ↔
        (manager_find_adapter_by_id s.adapters id).isSome = true) := by
  unfold manager_set_default_adapter
  cases hf : manager_find_adapter_by_id s.adapters id with
  | none => simp [hasDefaultChanged]
  | some a => simp [hasDefaultChanged]

/-- Claim C9 counterexample: on a full 4-byte read delivering pid 7, the
reap handler issues waitpid(7, &status, 0) — a wait whose options word has
the WNOHANG bit clear, i.e. a blocking wait on the event-loop hot path. -/
theorem child_exit_issues_blocking_wait :
    Sys.waitpid 7 0 ∈ child_exit 4 7 ∧
      isBlockingWait (Sys.waitpid 7 0) = true := by
  decide

/-- Claim C9 (amended): on each completion-channel signal the reap handler
issues exactly one read of one pid-sized record, and when the read delivers
a full record it reclaims that specific child with a single wait targeted
at that identifier — a wait issued with options 0 (potentially blocking),
not WNOHANG. -/
theorem child_exit_reads_one_record_then_targeted_wait
    (returned pidRead : Nat) :
    ((child_exit returned pidRead).filter isRead
        = [Sys.readPipe PID_SIZE returned]) ∧
      ((child_exit returned pidRead).filter isWait
        = if returned = PID_SIZE then [Sys.waitpid pidRead 0] else []) := by
  by_cases h : returned = PID_SIZE <;> simp [child_exit, h, isRead, isWait]

/-- Claim C10: on a Down kernel event for a dev_id naming no registered
adapter, manager_stop_adapter fails with -EINVAL and changes no manager
state, and the security manager is still told the device went down. -/
theorem down_event_unregistered_stop_fails_security_notified
    (s : ManagerState) (id : Nat) (o : Oracle)
    (h : manager_find_adapter_by_id s.adapters (id : Int) = none) :
    manager_stop_adapter s (id : Int) o.stopRet = (s, -EINVAL) ∧
      (device_event s HCI_DEV_DOWN id o).1 = s ∧
      Act.secDown id ∈ (device_event s HCI_DEV_DOWN id o).2.1 := by
  refine ⟨?_, ?_, ?_⟩
  · unfold manager_stop_adapter
    rw [h]
  · unfold device_event manager_stop_adapter
    rw [h]
    simp [HCI_DEV_DOWN, HCI_DEV_REG, HCI_DEV_UNREG, HCI_DEV_UP]
  · unfold device_event
    simp [HCI_DEV_DOWN, HCI_DEV_REG, HCI_DEV_UNREG, HCI_DEV_UP]

theorem devKey_lt (id : Int) : devKey id < 65536 := by
  unfold devKey
  have h1 : 0 ≤ id % 65536 := Int.emod_nonneg id (by decide)
  have h2 : id % 65536 < 65536 := Int.emod_lt_of_pos id (by decide)
  omega

theorem devKey_coe (n : Nat) (h : n < 65536) : devKey ((n : Nat) : Int) = n := by
  unfold devKey
  rw [Int.emod_eq_of_lt (by omega) (by exact_mod_cast h)]
  omega

theorem devKey_int_range (id : Int) (h0 : 0 ≤ id) (h1 : id < 65536) :
    ((devKey id : Nat) : Int) = id := by
  unfold devKey
  rw [Int.emod_eq_of_lt h0 h1]
  omega

theorem find_by_id_none_iff (l : List Adapter) (id : Int) :
    manager_find_adapter_by_id l id = none ↔
      ∀ a ∈ l, ¬ a.devId = devKey id := by
  simp [manager_find_adapter_by_id, List.find?_eq_none]

theorem find_by_id_some_mem {l : List Adapter} {id : Int} {a : Adapter}
    (h : manager_find_adapter_by_id l id = some a) : a ∈ l :=
  List.mem_of_find?_eq_some h

theorem find_by_id_some_key {l : List Adapter} {id : Int} {a : Adapter}
    (h : manager_find_adapter_by_id l id = some a) : a.devId = devKey id := by
  simpa using List.find?_some h

theorem find_by_id_isSome_iff (l : List Adapter) (id : Int) :
    (manager_find_adapter_by_id l id).isSome = true ↔
      ∃ a ∈ l, a.devId = devKey id := by
  simp [manager_find_adapter_by_id, List.find?_isSome]

theorem set_default_state (s : ManagerState) (id : Int) :
    (manager_set_default_adapter s id).1
      = { adapters := s.adapters, default_adapter_id := id } := by
  unfold manager_set_default_adapter
  cases manager_find_adapter_by_id s.adapters id <;> rfl

theorem set_default_adapters (s : ManagerState) (id : Int) :
    (manager_set_default_adapter s id).1.adapters = s.adapters := by
  rw [set_default_state]

theorem stop_adapter_state (s : ManagerState) (id r : Int) :
    (manager_stop_adapter s id r).1 = s := by
  unfold manager_stop_adapter
  cases manager_find_adapter_by_id s.adapters id <;> rfl

theorem start_adapter_adapters (s : ManagerState) (id r : Int) :
    (manager_start_adapter s id r).1.adapters = s.adapters := by
  unfold manager_start_adapter
  cases manager_find_adapter_by_id s.adapters id with
  | none => rfl
  | some a =>
    by_cases h1 : r < 0
    · simp [h1]
    · by_cases h2 : s.default_adapter_id < 0 <;>
        simp [h1, h2, set_default_adapters]

theorem unregister_state_of_find (s : ManagerState) (id route : Int)
    (a : Adapter) (hf : manager_find_adapter_by_id s.adapters id = some a) :
    (manager_unregister_adapter s id route).1
      = if s.default_adapter_id = (a.devId : Int) ∨ s.default_adapter_id < 0
        then { adapters := s.adapters.erase a, default_adapter_id := route }
        else { adapters := s.adapters.erase a,
               default_adapter_id := s.default_adapter_id } := by
  unfold manager_unregister_adapter manager_remove_adapter
    manager_set_default_adapter
  rw [hf]
  by_cases hc : s.default_adapter_id = (a.devId : Int) ∨ s.default_adapter_id < 0
  · simp only [hc, if_true]
    cases manager_find_adapter_by_id (s.adapters.erase a) route <;> rfl
  · simp [hc]

theorem unregister_adapters_of_find (s : ManagerState) (id route : Int)
    (a : Adapter) (hf : manager_find_adapter_by_id s.adapters id = some a) :
    (manager_unregister_adapter s id route).1.adapters
      = s.adapters.erase a := by
  rw [unregister_state_of_find s id route a hf]
  by_cases hc :
      s.default_adapter_id = (a.devId : Int) ∨ s.default_adapter_id < 0 <;>
    simp [hc]

theorem erase_find_eq_filter (l : List Adapter) (k : Nat) (a : Adapter)
    (hnd : (l.map Adapter.devId).Nodup)
    (h : l.find? (fun b => b.devId == k) = some a) :
    l.erase a = l.filter (fun b => !(b.devId == k)) := by
  induction l with
  | nil => simp at h
  | cons c t ih =>
    have hnd' : (t.map Adapter.devId).Nodup :=
      (List.nodup_cons.mp (by simpa using hnd)).2
    have hcnot : c.devId ∉ t.map Adapter.devId :=
      (List.nodup_cons.mp (by simpa using hnd)).1
    by_cases hc : c.devId = k
    · have ha : a = c := by
        rw [List.find?_cons_of_pos _ (by simp [hc])] at h
        exact (Option.some.inj h).symm
      subst ha
      rw [List.erase_cons_head, List.filter_cons_of_neg (by simp [hc]),
        List.filter_eq_self.mpr]
      intro b hb
      have hbk : ¬ b.devId = k := by
        intro hbk
        exact hcnot (by rw [hc, ← hbk]; exact List.mem_map_of_mem _ hb)
      simp [hbk]
    · have h' : t.find? (fun b => b.devId == k) = some a := by
        rwa [List.find?_cons_of_neg _ (by simp [hc])] at h
      have hak : a.devId = k := by simpa using List.find?_some h'
      have hca : ¬ (c == a) = true := by
        simp only [beq_iff_eq]
        intro hce
        rw [hce, hak] at hc
        exact hc rfl
      rw [List.erase_cons_tail hca, List.filter_cons_of_pos (by simp [hc]),
        ih hnd' h']

theorem runOps_adapters_general (ops : List MOp) :
    ∀ s : ManagerState,
      (s.adapters.map Adapter.devId).Nodup →
      (∀ d ∈ regIds ops, ∀ a ∈ s.adapters, a.devId ≠ d) →
      (regIds ops).Nodup →
      (runOps ops s).adapters
        = s.adapters.filter (fun a => !(ops.any (isUnregOf a.devId)))
            ++ specListedAdapters ops := by
  induction ops with
  | nil =>
    intro s _ _ _
    simp [runOps, specListedAdapters]
  | cons op rest ih =>
    intro s hnd hdisj hnodup
    cases op with
    | register id devup =>
      have hkey : ∀ a ∈ s.adapters, a.devId ≠ devKey id := fun a ha =>
        hdisj (devKey id) (by simp [regIds]) a ha
      have hfindnone : manager_find_adapter_by_id s.adapters id = none :=
        (find_by_id_none_iff s.adapters id).mpr hkey
      have hnotrest : devKey id ∉ regIds rest := by
        have := hnodup
        simp only [regIds, List.nodup_cons] at this
        exact this.1
      have hnd' : ((s.adapters ++ [adapter_create id devup]).map
          Adapter.devId).Nodup := by
        rw [List.map_append]
        refine hnd.append (by simp) ?_
        intro x hx hx2
        simp only [List.map_cons, List.map_nil, List.mem_singleton] at hx2
        rcases List.mem_map.mp hx with ⟨b, hb, rfl⟩
        exact hkey b hb (by simpa [adapter_create] using hx2)
      have hdisj' : ∀ d ∈ regIds rest,
          ∀ b ∈ s.adapters ++ [adapter_create id devup], b.devId ≠ d := by
        intro d hd b hb
        rcases List.mem_append.mp hb with h | h
        · exact hdisj d (by simp [regIds, hd]) b h
        · simp only [List.mem_singleton] at h
          subst h
          intro he
          apply hnotrest
          have hdk : devKey id = d := by simpa [adapter_create] using he
          rwa [hdk]
      have hrun := ih
        { adapters := s.adapters ++ [adapter_create id devup],
          default_adapter_id := s.default_adapter_id } hnd' hdisj'
        (by have := hnodup; simp only [regIds, List.nodup_cons] at this;
            exact this.2)
      have happ : applyOp s (MOp.register id devup)
          = { adapters := s.adapters ++ [adapter_create id devup],
              default_adapter_id := s.default_adapter_id } := by
        simp [applyOp, manager_register_adapter, hfindnone]
      rw [runOps, happ, hrun]
      rw [List.filter_append]
      by_cases hAny : rest.any (isUnregOf (devKey id)) = true
      · rw [List.filter_cons_of_neg (by simp [adapter_create, hAny]),
          List.filter_nil]
        simp only [specListedAdapters, hAny, if_true, List.append_nil]
        congr 1
      · rw [List.filter_cons_of_pos (by simp [adapter_create, hAny]),
          List.filter_nil]
        simp only [specListedAdapters, hAny, if_false]
        rw [List.append_assoc]
        congr 1
    | unregister id route =>
      cases hf : manager_find_adapter_by_id s.adapters id with
      | none =>
        have happ : applyOp s (MOp.unregister id route) = s := by
          simp [applyOp, manager_unregister_adapter, hf]
        have hkeys := (find_by_id_none_iff s.adapters id).mp hf
        rw [runOps, happ, ih s hnd (fun d hd => hdisj d hd) hnodup]
        congr 1
        apply List.filter_congr
        intro b hb
        simp [List.any_cons, isUnregOf, hkeys b hb]
      | some a =>
        have herase := erase_find_eq_filter s.adapters (devKey id) a hnd hf
        have happ : (applyOp s (MOp.unregister id route)).adapters
            = s.adapters.filter (fun b => !(b.devId == devKey id)) := by
          rw [applyOp, unregister_adapters_of_find s id route a hf, herase]
        have hnd'' : ((applyOp s (MOp.unregister id route)).adapters.map
            Adapter.devId).Nodup := by
          rw [happ]
          exact hnd.sublist ((List.filter_sublist _).map _)
        have hdisj'' : ∀ d ∈ regIds rest,
            ∀ b ∈ (applyOp s (MOp.unregister id route)).adapters,
              b.devId ≠ d := by
          intro d hd b hb
          rw [happ] at hb
          exact hdisj d hd b (List.mem_of_mem_filter hb)
        have hrun := ih (applyOp s (MOp.unregister id route)) hnd'' hdisj''
          hnodup
        rw [runOps, hrun, happ, List.filter_filter]
        congr 1
        apply List.filter_congr
        intro b hb
        simp only [List.any_cons, isUnregOf, Bool.not_or]
        rw [Bool.and_comm]
    | markUp id r =>
      have happ : (applyOp s (MOp.markUp id r)).adapters = s.adapters :=
        start_adapter_adapters s id r
      have hrun := ih (applyOp s (MOp.markUp id r)) (by rw [happ]; exact hnd)
        (fun d hd b hb => hdisj d hd b (by rwa [happ] at hb)) hnodup
      rw [runOps, hrun, happ]
      congr 1
    | markDown id r =>
      have happ : applyOp s (MOp.markDown id r) = s := stop_adapter_state s id r
      rw [runOps, happ, ih s hnd (fun d hd => hdisj d hd) hnodup]
      congr 1
    | setDefault id =>
      have happ : (applyOp s (MOp.setDefault id)).adapters = s.adapters :=
        set_default_adapters s id
      have hrun := ih (applyOp s (MOp.setDefault id)) (by rw [happ]; exact hnd)
        (fun d hd b hb => hdisj d hd b (by rwa [happ] at hb)) hnodup
      rw [runOps, hrun, happ]
      congr 1

/-- Witness for C10: a Down event for dev 0 on the empty registry. -/
theorem down_event_unregistered_witness :
    (manager_find_adapter_by_id initState.adapters ((0 : Nat) : Int) = none) ∧
      (manager_stop_adapter initState ((0 : Nat) : Int)
          (Oracle.mk none (-1) 0 0).stopRet = (initState, -EINVAL) ∧
        (device_event initState HCI_DEV_DOWN 0 (Oracle.mk none (-1) 0 0)).1
          = initState ∧
        Act.secDown 0
          ∈ (device_event initState HCI_DEV_DOWN 0 (Oracle.mk none (-1) 0 0)).2.1) :=
  ⟨by decide,
    down_event_unregistered_stop_fails_security_notified initState 0
      (Oracle.mk none (-1) 0 0) (by decide)⟩

/-- Claim C3: for every sequence of register and unregister calls whose
register calls use pairwise distinct dev_ids, the registry lists exactly
the adapters whose register call has no later unregister of the same
device, in registration (insertion) order. -/
theorem registry_lists_surviving_registrations (ops : List MOp)
    (hro : ops.all isRegistryOp = true)
    (hnodup : (regIds ops).Nodup) :
    (runOps ops initState).adapters = specListedAdapters ops := by
  have h := runOps_adapters_general ops initState (by simp [initState])
    (fun d hd a ha => by simp [initState] at ha) hnodup
  simpa [initState] using h

/-- Witness for C3 at a concrete trace: register 0, register 1,
unregister 0 leaves exactly adapter 1 listed. -/
theorem registry_lists_surviving_registrations_witness :
    (([MOp.register 0 false, MOp.register 1 true,
        MOp.unregister 0 (-1)].all isRegistryOp = true) ∧
      (regIds [MOp.register 0 false, MOp.register 1 true,
        MOp.unregister 0 (-1)]).Nodup) ∧
      (runOps [MOp.register 0 false, MOp.register 1 true,
          MOp.unregister 0 (-1)] initState).adapters
        = specListedAdapters [MOp.register 0 false, MOp.register 1 true,
            MOp.unregister 0 (-1)] :=
  ⟨⟨by decide, by decide⟩,
    registry_lists_surviving_registrations _ (by decide) (by decide)⟩

theorem invExact_applyOp (s : ManagerState) (op : MOp)
    (hI : InvExact s) (hok : opOk s op = true) :
    InvExact (applyOp s op) := by
  obtain ⟨hdef, hrange⟩ := hI
  cases op with
  | register id devup =>
    cases hf : manager_find_adapter_by_id s.adapters id with
    | some a =>
      have heq : applyOp s (MOp.register id devup) = s := by
        simp [applyOp, manager_register_adapter, hf]
      rw [heq]
      exact ⟨hdef, hrange⟩
    | none =>
      have happ : applyOp s (MOp.register id devup)
          = { adapters := s.adapters ++ [adapter_create id devup],
              default_adapter_id := s.default_adapter_id } := by
        simp [applyOp, manager_register_adapter, hf]
      rw [happ]
      constructor
      · rcases hdef with h | ⟨a, ha, hda⟩
        · exact Or.inl h
        · exact Or.inr ⟨a, List.mem_append_left _ ha, hda⟩
      · intro b hb
        rcases List.mem_append.mp hb with h | h
        · exact hrange b h
        · simp only [List.mem_singleton] at h
          subst h
          exact devKey_lt id
  | unregister id route =>
    cases hf : manager_find_adapter_by_id s.adapters id with
    | none =>
      have heq : applyOp s (MOp.unregister id route) = s := by
        simp [applyOp, manager_unregister_adapter, hf]
      rw [heq]
      exact ⟨hdef, hrange⟩
    | some a =>
      have hsub : ∀ b ∈ s.adapters.erase a, b ∈ s.adapters :=
        fun b hb => List.mem_of_mem_erase hb
      have happ : applyOp s (MOp.unregister id route)
          = (manager_unregister_adapter s id route).1 := rfl
      rw [happ, unregister_state_of_find s id route a hf]
      by_cases hc : s.default_adapter_id = (a.devId : Int) ∨
          s.default_adapter_id < 0
      · rw [if_pos hc]
        constructor
        · have hok' : (decide (route < 0) ||
              (idInRange route &&
                (manager_find_adapter_by_id (s.adapters.erase a)
                  route).isSome)) = true := by
            simpa [opOk, hf] using hok
          rcases Bool.or_eq_true_iff.mp hok' with h | h
          · exact Or.inl (by simpa using h)
          · obtain ⟨hr0, hs⟩ := Bool.and_eq_true_iff.mp h
            obtain ⟨b, hbmem, hbkey⟩ := (find_by_id_isSome_iff _ _).mp hs
            have hr : 0 ≤ route ∧ route < 65536 := by
              simpa [idInRange] using hr0
            refine Or.inr ⟨b, hbmem, ?_⟩
            rw [hbkey]
            exact devKey_int_range route hr.1 hr.2
        · intro b hb
          exact hrange b (hsub b hb)
      · rw [if_neg hc]
        push_neg at hc
        obtain ⟨hne, hge⟩ := hc
        constructor
        · rcases hdef with h | ⟨b, hb, hdb⟩
          · exact absurd h (not_lt.mpr hge)
          · have hba : b ≠ a := by
              intro hba
              rw [hba] at hdb
              exact hne hdb.symm
            exact Or.inr ⟨b, (List.mem_erase_of_ne hba).mpr hb, hdb⟩
        · intro b hb
          exact hrange b (hsub b hb)
  | markUp id r =>
    cases hf : manager_find_adapter_by_id s.adapters id with
    | none =>
      have heq : applyOp s (MOp.markUp id r) = s := by
        simp [applyOp, manager_start_adapter, hf]
      rw [heq]
      exact ⟨hdef, hrange⟩
    | some a =>
      by_cases h1 : r < 0
      · have heq : applyOp s (MOp.markUp id r) = s := by
          simp [applyOp, manager_start_adapter, hf, h1]
        rw [heq]
        exact ⟨hdef, hrange⟩
      · by_cases h2 : s.default_adapter_id < 0
        · have happ : applyOp s (MOp.markUp id r)
              = { adapters := s.adapters, default_adapter_id := id } := by
            simp [applyOp, manager_start_adapter, hf, h1, h2,
              set_default_state]
          rw [happ]
          have hr : 0 ≤ id ∧ id < 65536 := by
            simpa [opOk, idInRange] using hok
          refine ⟨Or.inr ⟨a, find_by_id_some_mem hf, ?_⟩, hrange⟩
          rw [find_by_id_some_key hf]
          exact devKey_int_range id hr.1 hr.2
        · have heq : applyOp s (MOp.markUp id r) = s := by
            simp [applyOp, manager_start_adapter, hf, h1, h2]
          rw [heq]
          exact ⟨hdef, hrange⟩
  | markDown id r =>
    have heq : applyOp s (MOp.markDown id r) = s := stop_adapter_state s id r
    rw [heq]
    exact ⟨hdef, hrange⟩
  | setDefault id =>
    have happ : applyOp s (MOp.setDefault id)
        = { adapters := s.adapters, default_adapter_id := id } := by
      simp [applyOp, set_default_state]
    rw [happ]
    have hok' : (decide (id < 0) ||
        (idInRange id &&
          (manager_find_adapter_by_id s.adapters id).isSome)) = true := by
      simpa [opOk] using hok
    constructor
    · rcases Bool.or_eq_true_iff.mp hok' with h | h
      · exact Or.inl (by simpa using h)
      · obtain ⟨hr0, hs⟩ := Bool.and_eq_true_iff.mp h
        obtain ⟨b, hbmem, hbkey⟩ := (find_by_id_isSome_iff _ _).mp hs
        have hr : 0 ≤ id ∧ id < 65536 := by simpa [idInRange] using hr0
        refine Or.inr ⟨b, hbmem, ?_⟩
        rw [hbkey]
        exact devKey_int_range id hr.1 hr.2
    · exact hrange

theorem invExact_runOps (ops : List MOp) :
    ∀ s : ManagerState, InvExact s → traceOk s ops = true →
      InvExact (runOps ops s) := by
  induction ops with
  | nil =>
    intro s h _
    exact h
  | cons op rest ih =>
    intro s h hok
    simp only [traceOk, Bool.and_eq_true] at hok
    exact ih _ (invExact_applyOp s op h hok.1) hok.2

/-- Claim C4 counterexample: set_default(0) from the initial state records
default_adapter_id = 0 — non-negative, i.e. not "none" — although no
adapter is registered, refuting the invariant for arbitrary sequences of
the five operations. -/
theorem set_default_breaks_default_invariant :
    (runOps [MOp.setDefault 0] initState).default_adapter_id = 0 ∧
      manager_find_adapter_by_id
        (runOps [MOp.setDefault 0] initState).adapters
        (runOps [MOp.setDefault 0] initState).default_adapter_id = none := by
  decide

/-- Claim C4 (amended): along every operation sequence from the initial
state in which each default assignment resolves — each set_default names a
currently registered adapter or a negative id, the routing result installed
during an unregister is negative or resolves after the removal, and mark_up
ids lie in the 16-bit device-id range — a non-negative default_adapter_id
always names a currently registered adapter. -/
theorem default_names_registered (ops : List MOp)
    (hok : traceOk initState ops = true)
    (hpos : 0 ≤ (runOps ops initState).default_adapter_id) :
    (manager_find_adapter_by_id (runOps ops initState).adapters
      (runOps ops initState).default_adapter_id).isSome = true := by
  have hI : InvExact (runOps ops initState) :=
    invExact_runOps ops initState
      ⟨Or.inl (by norm_num [initState]), by simp [initState]⟩ hok
  rcases hI.1 with h | ⟨a, ha, hda⟩
  · exact absurd hpos (not_le.mpr h)
  · rw [find_by_id_isSome_iff]
    refine ⟨a, ha, ?_⟩
    rw [← hda]
    exact (devKey_coe a.devId (hI.2 a ha)).symm

/-- Witness for the amended C4 at a concrete trace ending with a
non-negative default. -/
theorem default_names_registered_witness :
    (traceOk initState [MOp.register 0 false, MOp.markUp 0 0,
        MOp.unregister 0 (-1), MOp.register 1 true, MOp.markUp 1 5] = true ∧
      0 ≤ (runOps [MOp.register 0 false, MOp.markUp 0 0,
          MOp.unregister 0 (-1), MOp.register 1 true, MOp.markUp 1 5]
            initState).default_adapter_id) ∧
      (manager_find_adapter_by_id
        (runOps [MOp.register 0 false, MOp.markUp 0 0,
          MOp.unregister 0 (-1), MOp.register 1 true, MOp.markUp 1 5]
            initState).adapters
        (runOps [MOp.register 0 false, MOp.markUp 0 0,
          MOp.unregister 0 (-1), MOp.register 1 true, MOp.markUp 1 5]
            initState).default_adapter_id).isSome = true :=
  ⟨⟨by decide, by decide⟩,
    default_names_registered _ (by decide) (by decide)⟩

end BlueZ
